import Mathlib

/-!
Shallow embedding of `src/RPiServer_v1.0.py` (Smart AC System server).

The embedding models the control state machine: the module-level mutable
variables, the MQTT `on_message` handler, and one pass of the main `while`
loop (a "tick").  Publishes to the Arduino-facing command channels
(`RPiServer/command/power`, `RPiServer/command/mode`, `RPiServer/command/temp`,
`RPiServer/request/temp`) are recorded as output events, together with the
`time.sleep(0.5)` calls the power handler inserts between dependent IR
commands.  Publishes to log and user-notice channels mutate no state and are
not recorded.  Temperatures are modelled over `Int` (no claim depends on
fractional temperature values); payload parsing (`int(payload)`,
`float(payload)`) is modelled by an `Option` argument, `none` standing for
the `ValueError` branch.
-/

namespace SmartAC

/-- The Python global `roomOccupancy` is dynamically typed: either the string
sentinel `"N/A"` or an integer count. -/
inductive OccVal where
  | na : OccVal
  | num (k : Int) : OccVal
deriving DecidableEq

/-- The Python global `arduinoAvailable` holds `"N/A"` initially and the
booleans `True` / `False` afterwards. -/
inductive Avail where
  | na : Avail
  | tru : Avail
  | fls : Avail
deriving DecidableEq

/-- The mutable module-level state of `RPiServer_v1.0.py`.
`timeoutEndTimestamp` / `timeoutEndTime` are `none` while the corresponding
Python variables are still unassigned (reading them then would raise
`NameError`); both are assigned together by the timer-arming block, so they
are modelled as holding the same timestamp. -/
structure SysState where
  arduinoAvailable : Avail
  arduinoTemp : Option Int
  rpiTemp : Option Int
  roomOccupancy : OccVal
  priorRoomOccupancy : Option OccVal
  systemMode : String
  systemTargetTemp : Int
  systemPowerState : String
  timeoutState : Bool
  timeoutEndTimestamp : Option Int
  timeoutEndTime : Option Int
deriving DecidableEq

def validPowerStates : List String := ["on", "off"]

def validModes : List String := ["quiet", "super", "cooling"]

def validTemps : List Int := [16, 17, 18, 19, 20, 21, 22, 23, 24, 25]

def timeoutMinutes : Int := 5

/-- The initial values of the module-level globals. -/
def initState : SysState :=
  { arduinoAvailable := Avail.na
    arduinoTemp := none
    rpiTemp := none
    roomOccupancy := OccVal.na
    priorRoomOccupancy := none
    systemMode := "N/A"
    systemTargetTemp := 16
    systemPowerState := "off"
    timeoutState := false
    timeoutEndTimestamp := none
    timeoutEndTime := none }

/-- Python helper `is_number(var)`: `isinstance(var, (int, float))`. -/
def is_number : OccVal → Bool
  | OccVal.na => false
  | OccVal.num _ => true

/-- The guard `is_number(roomOccupancy) and roomOccupancy > 0` used by the
quiet-mode rule and the reoccupation-cancel block of the main loop. -/
def occPositive : OccVal → Bool
  | OccVal.na => false
  | OccVal.num k => decide (0 < k)

/-- Outbound publishes on the Arduino-facing channels, plus the
`time.sleep` spacing calls between dependent IR commands. -/
inductive OutCmd where
  | powerCmd (payload : String) : OutCmd
  | modeCmd (payload : String) : OutCmd
  | tempCmd (t : Int) : OutCmd
  | tempRequest : OutCmd
  | sleepMs (n : Nat) : OutCmd
deriving DecidableEq

/-- Inbound MQTT messages handled by `on_message`, by topic.  Payloads that
the handler parses with `int(...)` / `float(...)` are carried as the parse
result (`none` = `ValueError`). -/
inductive Msg where
  | arduinoTempNotice (parsed : Option Int) : Msg
  | arduinoOccChangeNotice (parsed : Option Int) : Msg
  | userRefreshRequest : Msg
  | userPowerCommand (payload : String) : Msg
  | userModeCommand (payload : String) : Msg
  | userTempCommand (parsed : Option Int) : Msg
  | userUpdateOccCommand (parsed : Option Int) : Msg
deriving DecidableEq

/-- The `on_message` MQTT callback.  Each topic's `if` block is one match
arm (topics are distinct string constants, so exactly one block can fire per
message).  Log/notice publishes are not recorded. -/
def on_message (m : Msg) (s : SysState) : SysState × List OutCmd :=
  match m with
  | Msg.arduinoTempNotice parsed =>
      let s1 := { s with arduinoAvailable := Avail.tru }
      match parsed with
      | some t => ({ s1 with arduinoTemp := some t }, [])
      | none => (s1, [])
  | Msg.arduinoOccChangeNotice parsed =>
      if s.systemPowerState = "off" then (s, [])
      else
        match parsed with
        | some occChange =>
            match s.roomOccupancy with
            | OccVal.num j =>
                let s1 := { s with priorRoomOccupancy := some (OccVal.num j) }
                let newOcc := j + occChange
                let newOcc := if newOcc < 0 then 0 else newOcc
                ({ s1 with roomOccupancy := OccVal.num newOcc }, [])
            | OccVal.na =>
                -- In Python `roomOccupancy += occChange` would raise
                -- `TypeError` on the "N/A" string; this state is unreachable
                -- while power is "on" (see the occupancy invariants below).
                -- `priorRoomOccupancy = roomOccupancy` has already executed.
                ({ s with priorRoomOccupancy := some OccVal.na }, [])
        | none => (s, [])
  | Msg.userRefreshRequest =>
      -- Publishes the status notices to the user client; no state change.
      -- The timeout string it computes is modelled by `refreshTimeoutOk`.
      (s, [])
  | Msg.userPowerCommand payload =>
      if payload ∈ validPowerStates then
        let out1 : List OutCmd := [OutCmd.powerCmd payload]
        -- "If the system has just been turned on, set it to super mode and
        -- the target temperature automatically"
        let (s2, out2) :=
          if s.systemPowerState = "off" ∧ payload = "on" then
            let out2 := out1 ++
              [OutCmd.sleepMs 500, OutCmd.modeCmd "super",
               OutCmd.sleepMs 500, OutCmd.tempCmd s.systemTargetTemp]
            let s2 :=
              if is_number s.roomOccupancy then s
              else { s with roomOccupancy := OccVal.num 0 }
            ({ s2 with systemMode := "super" }, out2)
          else (s, out1)
        -- "If system has been turned off, revert occupancy and mode to N/A"
        -- (reads the still-unassigned global `systemPowerState`, i.e. the
        -- field of `s`, which `s2` has not changed)
        let s3 :=
          if s2.systemPowerState = "on" ∧ payload = "off" then
            { s2 with roomOccupancy := OccVal.na, systemMode := "N/A" }
          else s2
        ({ s3 with systemPowerState := payload }, out2)
      else (s, [])
  | Msg.userModeCommand payload =>
      if payload ∈ validModes then
        ({ s with systemMode := payload }, [OutCmd.modeCmd payload])
      else (s, [])
  | Msg.userTempCommand parsed =>
      match parsed with
      | some temp =>
          if temp ∈ validTemps then
            ({ s with systemTargetTemp := temp }, [OutCmd.tempCmd temp])
          else (s, [])
      | none => (s, [])
  | Msg.userUpdateOccCommand parsed =>
      match parsed with
      | some newOccupancy =>
          if 0 ≤ newOccupancy then
            ({ s with priorRoomOccupancy := some s.roomOccupancy,
                      roomOccupancy := OccVal.num newOccupancy }, [])
          else (s, [])
      | none => (s, [])

/-- The expiry comparison
`datetime.datetime.now().timestamp() > timeoutEndTimestamp` of the main
loop.  The `none` arm models the `NameError` Python would raise if
`timeoutEndTimestamp` had never been assigned; the reachability invariant
below shows this arm is dead whenever the guard `timeoutState == True`
holds. -/
def timerExpired (now : Int) (s : SysState) : Bool :=
  match s.timeoutEndTimestamp with
  | some d => decide (now > d)
  | none => false

/-- The timeout-string computation of the `userRefreshRequest` handler:
`true` iff the handler can build the string without reading an unassigned
`timeoutEndTime` (Python `NameError`). -/
def refreshTimeoutOk (s : SysState) : Bool :=
  if s.systemPowerState = "off" ∨ s.timeoutState = false then true
  else s.timeoutEndTime.isSome

/-- Main-loop block: "Once the room is occupied, turn the AC to quiet
mode". -/
def quietRule (s : SysState) : SysState × List OutCmd :=
  if occPositive s.roomOccupancy = true ∧ s.systemMode ≠ "quiet" then
    ({ s with systemMode := "quiet" }, [OutCmd.modeCmd "quiet"])
  else (s, [])

/-- Main-loop block: "If occupancy has changed to 0, start a timer to
switch off the AC after a period of inoccupancy".  `timeoutEndTime` is
`datetime.fromtimestamp(timeoutEndTimestamp)`, modelled by the same
timestamp. -/
def armTimer (now : Int) (s : SysState) : SysState :=
  if s.systemPowerState = "on" ∧ s.roomOccupancy = OccVal.num 0 ∧
      s.timeoutState = false then
    { s with timeoutEndTimestamp := some (now + timeoutMinutes * 60),
             timeoutEndTime := some (now + timeoutMinutes * 60),
             timeoutState := true }
  else s

/-- Main-loop block: "If the inoccupancy timer is active and the room is
reoccupied, cancel the timer". -/
def cancelOnReoccupy (s : SysState) : SysState :=
  if occPositive s.roomOccupancy = true ∧ s.timeoutState = true then
    { s with timeoutState := false }
  else s

/-- Main-loop block: "If the timer has reached zero, turn the system
off". -/
def expireTimer (now : Int) (s : SysState) : SysState × List OutCmd :=
  if s.timeoutState = true ∧ timerExpired now s = true then
    ({ s with systemPowerState := "off", timeoutState := false,
              roomOccupancy := OccVal.na },
     [OutCmd.powerCmd "off"])
  else (s, [])

/-- Main-loop block: "If the system has been manually switch off, cancel
the timer if there is one". -/
def cancelOnManualOff (s : SysState) : SysState :=
  if s.systemPowerState = "off" ∧ s.timeoutState = true then
    { s with timeoutState := false }
  else s

/-- The part of a main-loop pass after the once-a-minute poll block: the
quiet-mode rule, timer arming, reoccupation cancel, expiry, and
manual-off cancel, in source order. -/
def tickRest (now : Int) (s : SysState) : SysState × List OutCmd :=
  let r1 := quietRule s
  let s2 := armTimer now r1.1
  let s3 := cancelOnReoccupy s2
  let r4 := expireTimer now s3
  let s5 := cancelOnManualOff r4.1
  (s5, r1.2 ++ r4.2)

/-- The state updates of the once-a-minute poll block up to the Arduino
temperature request: clear `arduinoTemp` if the Arduino did not answer the
previous request, then reset the availability flag to `False`. -/
def pollUpdate (s : SysState) : SysState :=
  let s1 :=
    if s.arduinoAvailable = Avail.fls then { s with arduinoTemp := none }
    else s
  { s1 with arduinoAvailable := Avail.fls }

/-- One pass of the main `while True` loop.  `now` is the current UNIX
timestamp; `now % 60 == 0` selects the once-a-minute poll block.  `sensor`
is the DHT11 reading: `none` models the `RuntimeError` branch, whose
`continue` skips the remainder of this loop pass. -/
def tick (now : Int) (sensor : Option Int) (s : SysState) :
    SysState × List OutCmd :=
  if now % 60 = 0 then
    match sensor with
    | none => (pollUpdate s, [OutCmd.tempRequest])
    | some t =>
        let r := tickRest now { pollUpdate s with rpiTemp := some t }
        (r.1, OutCmd.tempRequest :: r.2)
  else tickRest now s

/-- An event of the interleaving semantics: an inbound MQTT message handled
by `on_message`, or one pass of the main loop. -/
inductive Event where
  | msg (m : Msg) : Event
  | tick (now : Int) (sensor : Option Int) : Event
deriving DecidableEq

def step : Event → SysState → SysState × List OutCmd
  | Event.msg m, s => on_message m s
  | Event.tick now sensor, s => tick now sensor s

/-- Run a sequence of events from `s`, concatenating the emitted commands. -/
def runFrom (s : SysState) : List Event → SysState × List OutCmd
  | [] => (s, [])
  | e :: evs =>
      let r1 := step e s
      let r2 := runFrom r1.1 evs
      (r2.1, r1.2 ++ r2.2)

/-- Run a sequence of events from the initial state. -/
def run (evs : List Event) : SysState × List OutCmd := runFrom initState evs

def Event.isOccOverride : Event → Bool
  | Event.msg (Msg.userUpdateOccCommand _) => true
  | _ => false

def Event.isTick : Event → Bool
  | Event.tick _ _ => true
  | _ => false

/-- Aggregate reachability invariant: power is one of the two literals;
while power is on the occupancy is numeric; numeric occupancy is
non-negative; an armed timer has assigned deadline variables. -/
def Inv (s : SysState) : Prop :=
  (s.systemPowerState = "on" ∨ s.systemPowerState = "off") ∧
  (s.systemPowerState = "on" → is_number s.roomOccupancy = true) ∧
  (∀ k : Int, s.roomOccupancy = OccVal.num k → 0 ≤ k) ∧
  (s.timeoutState = true →
    s.timeoutEndTimestamp.isSome = true ∧ s.timeoutEndTime.isSome = true)

/-- Invariant used for the power-off/occupancy coupling: power is one of
the two literals, and occupancy is the `"N/A"` sentinel while power is
off.  Preserved by every event except the operator occupancy override. -/
def OffUnknownInv (s : SysState) : Prop :=
  (s.systemPowerState = "on" ∨ s.systemPowerState = "off") ∧
  (s.systemPowerState = "off" → s.roomOccupancy = OccVal.na)

@[simp] lemma pollUpdate_roomOccupancy (s : SysState) :
    (pollUpdate s).roomOccupancy = s.roomOccupancy := by
  simp only [pollUpdate]; split <;> rfl

@[simp] lemma pollUpdate_systemPowerState (s : SysState) :
    (pollUpdate s).systemPowerState = s.systemPowerState := by
  simp only [pollUpdate]; split <;> rfl

@[simp] lemma pollUpdate_systemMode (s : SysState) :
    (pollUpdate s).systemMode = s.systemMode := by
  simp only [pollUpdate]; split <;> rfl

@[simp] lemma pollUpdate_systemTargetTemp (s : SysState) :
    (pollUpdate s).systemTargetTemp = s.systemTargetTemp := by
  simp only [pollUpdate]; split <;> rfl

@[simp] lemma pollUpdate_timeoutState (s : SysState) :
    (pollUpdate s).timeoutState = s.timeoutState := by
  simp only [pollUpdate]; split <;> rfl

@[simp] lemma pollUpdate_timeoutEndTimestamp (s : SysState) :
    (pollUpdate s).timeoutEndTimestamp = s.timeoutEndTimestamp := by
  simp only [pollUpdate]; split <;> rfl

@[simp] lemma pollUpdate_timeoutEndTime (s : SysState) :
    (pollUpdate s).timeoutEndTime = s.timeoutEndTime := by
  simp only [pollUpdate]; split <;> rfl

lemma inv_init : Inv initState := by
  simp [Inv, initState]

lemma inv_on_message (m : Msg) (s : SysState) (h : Inv s) :
    Inv (on_message m s).1 := by
  obtain ⟨h0, h1, h2, h3⟩ := h
  cases m with
  | arduinoTempNotice p =>
      cases p <;> simp_all [on_message, Inv]
  | arduinoOccChangeNotice p =>
      cases p with
      | none => simp_all [on_message, Inv]
      | some d =>
          simp only [on_message]
          split
          · exact ⟨h0, h1, h2, h3⟩
          · cases hocc : s.roomOccupancy with
            | na => simp_all [Inv]
            | num j =>
                refine ⟨h0, by simp_all [Inv, is_number], ?_, by simp_all [Inv]⟩
                intro k hk
                simp only [hocc] at hk
                simp at hk
                split at hk <;> omega
  | userRefreshRequest => exact ⟨h0, h1, h2, h3⟩
  | userPowerCommand payload =>
      simp only [on_message]
      split
      · rename_i hv
        have hpo : payload = "on" ∨ payload = "off" := by
          simpa [validPowerStates] using hv
        rcases hpo with hpay | hpay <;> subst hpay
        · by_cases hoff : s.systemPowerState = "off"
          · cases hocc : s.roomOccupancy <;> simp_all [Inv, is_number]
          · have hon : s.systemPowerState = "on" := by tauto
            simp_all [Inv, is_number]
        · by_cases hon : s.systemPowerState = "on" <;>
            simp_all [Inv, is_number]
      · exact ⟨h0, h1, h2, h3⟩
  | userModeCommand payload =>
      by_cases hv : payload ∈ validModes <;> simp_all [on_message, Inv]
  | userTempCommand p =>
      cases p with
      | none => simp_all [on_message, Inv]
      | some t => by_cases hv : t ∈ validTemps <;> simp_all [on_message, Inv]
  | userUpdateOccCommand p =>
      cases p with
      | none => simp_all [on_message, Inv]
      | some n =>
          simp only [on_message]
          split <;> simp_all [Inv, is_number]

lemma inv_quietRule (s : SysState) (h : Inv s) : Inv (quietRule s).1 := by
  obtain ⟨h0, h1, h2, h3⟩ := h
  simp only [quietRule]
  split <;> simp_all [Inv]

lemma inv_armTimer (now : Int) (s : SysState) (h : Inv s) :
    Inv (armTimer now s) := by
  obtain ⟨h0, h1, h2, h3⟩ := h
  simp only [armTimer]
  split <;> simp_all [Inv]

lemma inv_cancelOnReoccupy (s : SysState) (h : Inv s) :
    Inv (cancelOnReoccupy s) := by
  obtain ⟨h0, h1, h2, h3⟩ := h
  simp only [cancelOnReoccupy]
  split <;> simp_all [Inv]

lemma inv_expireTimer (now : Int) (s : SysState) (h : Inv s) :
    Inv (expireTimer now s).1 := by
  obtain ⟨h0, h1, h2, h3⟩ := h
  simp only [expireTimer]
  split <;> simp_all [Inv]

lemma inv_cancelOnManualOff (s : SysState) (h : Inv s) :
    Inv (cancelOnManualOff s) := by
  obtain ⟨h0, h1, h2, h3⟩ := h
  simp only [cancelOnManualOff]
  split <;> simp_all [Inv]

lemma inv_tickRest (now : Int) (s : SysState) (h : Inv s) :
    Inv (tickRest now s).1 := by
  simp only [tickRest]
  exact inv_cancelOnManualOff _
    (inv_expireTimer now _ (inv_cancelOnReoccupy _
      (inv_armTimer now _ (inv_quietRule _ h))))

lemma inv_pollUpdate (s : SysState) (h : Inv s) : Inv (pollUpdate s) := by
  obtain ⟨h0, h1, h2, h3⟩ := h
  exact ⟨by simp_all, by simp_all, by simp_all, by simp_all⟩

lemma inv_tick (now : Int) (sensor : Option Int) (s : SysState) (h : Inv s) :
    Inv (tick now sensor s).1 := by
  simp only [tick]
  split
  · cases sensor with
    | none => exact inv_pollUpdate s h
    | some v =>
        apply inv_tickRest
        have := inv_pollUpdate s h
        obtain ⟨h0, h1, h2, h3⟩ := this
        exact ⟨by simp_all, by simp_all, by simp_all, by simp_all⟩
  · exact inv_tickRest now s h

lemma inv_step (e : Event) (s : SysState) (h : Inv s) : Inv (step e s).1 := by
  cases e with
  | msg m => exact inv_on_message m s h
  | tick now sensor => exact inv_tick now sensor s h

lemma inv_runFrom (evs : List Event) (s : SysState) (h : Inv s) :
    Inv (runFrom s evs).1 := by
  induction evs generalizing s with
  | nil => exact h
  | cons e evs ih => exact ih _ (inv_step e s h)

lemma inv_run (evs : List Event) : Inv (run evs).1 :=
  inv_runFrom evs initState inv_init

@[simp] lemma quietRule_roomOccupancy (s : SysState) :
    (quietRule s).1.roomOccupancy = s.roomOccupancy := by
  simp only [quietRule]; split <;> rfl

@[simp] lemma quietRule_systemPowerState (s : SysState) :
    (quietRule s).1.systemPowerState = s.systemPowerState := by
  simp only [quietRule]; split <;> rfl

@[simp] lemma quietRule_timeoutState (s : SysState) :
    (quietRule s).1.timeoutState = s.timeoutState := by
  simp only [quietRule]; split <;> rfl

@[simp] lemma quietRule_timeoutEndTimestamp (s : SysState) :
    (quietRule s).1.timeoutEndTimestamp = s.timeoutEndTimestamp := by
  simp only [quietRule]; split <;> rfl

@[simp] lemma quietRule_timeoutEndTime (s : SysState) :
    (quietRule s).1.timeoutEndTime = s.timeoutEndTime := by
  simp only [quietRule]; split <;> rfl

@[simp] lemma quietRule_systemTargetTemp (s : SysState) :
    (quietRule s).1.systemTargetTemp = s.systemTargetTemp := by
  simp only [quietRule]; split <;> rfl

@[simp] lemma armTimer_roomOccupancy (now : Int) (s : SysState) :
    (armTimer now s).roomOccupancy = s.roomOccupancy := by
  simp only [armTimer]; split <;> rfl

@[simp] lemma armTimer_systemPowerState (now : Int) (s : SysState) :
    (armTimer now s).systemPowerState = s.systemPowerState := by
  simp only [armTimer]; split <;> rfl

@[simp] lemma armTimer_systemMode (now : Int) (s : SysState) :
    (armTimer now s).systemMode = s.systemMode := by
  simp only [armTimer]; split <;> rfl

@[simp] lemma armTimer_systemTargetTemp (now : Int) (s : SysState) :
    (armTimer now s).systemTargetTemp = s.systemTargetTemp := by
  simp only [armTimer]; split <;> rfl

@[simp] lemma cancelOnReoccupy_roomOccupancy (s : SysState) :
    (cancelOnReoccupy s).roomOccupancy = s.roomOccupancy := by
  simp only [cancelOnReoccupy]; split <;> rfl

@[simp] lemma cancelOnReoccupy_systemPowerState (s : SysState) :
    (cancelOnReoccupy s).systemPowerState = s.systemPowerState := by
  simp only [cancelOnReoccupy]; split <;> rfl

@[simp] lemma cancelOnReoccupy_systemMode (s : SysState) :
    (cancelOnReoccupy s).systemMode = s.systemMode := by
  simp only [cancelOnReoccupy]; split <;> rfl

@[simp] lemma cancelOnReoccupy_timeoutEndTimestamp (s : SysState) :
    (cancelOnReoccupy s).timeoutEndTimestamp = s.timeoutEndTimestamp := by
  simp only [cancelOnReoccupy]; split <;> rfl

@[simp] lemma cancelOnReoccupy_timeoutEndTime (s : SysState) :
    (cancelOnReoccupy s).timeoutEndTime = s.timeoutEndTime := by
  simp only [cancelOnReoccupy]; split <;> rfl

@[simp] lemma expireTimer_systemMode (now : Int) (s : SysState) :
    (expireTimer now s).1.systemMode = s.systemMode := by
  simp only [expireTimer]; split <;> rfl

@[simp] lemma expireTimer_systemTargetTemp (now : Int) (s : SysState) :
    (expireTimer now s).1.systemTargetTemp = s.systemTargetTemp := by
  simp only [expireTimer]; split <;> rfl

@[simp] lemma cancelOnManualOff_roomOccupancy (s : SysState) :
    (cancelOnManualOff s).roomOccupancy = s.roomOccupancy := by
  simp only [cancelOnManualOff]; split <;> rfl

@[simp] lemma cancelOnManualOff_systemPowerState (s : SysState) :
    (cancelOnManualOff s).systemPowerState = s.systemPowerState := by
  simp only [cancelOnManualOff]; split <;> rfl

@[simp] lemma cancelOnManualOff_systemMode (s : SysState) :
    (cancelOnManualOff s).systemMode = s.systemMode := by
  simp only [cancelOnManualOff]; split <;> rfl

@[simp] lemma cancelOnManualOff_timeoutEndTimestamp (s : SysState) :
    (cancelOnManualOff s).timeoutEndTimestamp = s.timeoutEndTimestamp := by
  simp only [cancelOnManualOff]; split <;> rfl

@[simp] lemma cancelOnManualOff_timeoutEndTime (s : SysState) :
    (cancelOnManualOff s).timeoutEndTime = s.timeoutEndTime := by
  simp only [cancelOnManualOff]; split <;> rfl

lemma cancelOnReoccupy_cancels (s : SysState)
    (h : occPositive s.roomOccupancy = true) :
    (cancelOnReoccupy s).timeoutState = false := by
  simp only [cancelOnReoccupy]
  split <;> simp_all

lemma expireTimer_of_not_armed (now : Int) (s : SysState)
    (h : s.timeoutState = false) : expireTimer now s = (s, []) := by
  simp [expireTimer, h]

lemma cancelOnManualOff_of_not_armed (s : SysState)
    (h : s.timeoutState = false) : cancelOnManualOff s = s := by
  simp [cancelOnManualOff, h]

lemma quietRule_out (s : SysState) :
    (quietRule s).2 = [] ∨ (quietRule s).2 = [OutCmd.modeCmd "quiet"] := by
  simp only [quietRule]; split <;> simp

/-- After any tick from a state with positive numeric occupancy, the
vacancy timer is idle, power and occupancy are unchanged, and the tick
emitted no power command. -/
lemma tickRest_occupied (now : Int) (s : SysState)
    (h : occPositive s.roomOccupancy = true) :
    (tickRest now s).1.timeoutState = false ∧
    (tickRest now s).1.systemPowerState = s.systemPowerState ∧
    (tickRest now s).1.roomOccupancy = s.roomOccupancy ∧
    ∀ p, OutCmd.powerCmd p ∉ (tickRest now s).2 := by
  simp only [tickRest]
  have hocc3 : (cancelOnReoccupy (armTimer now (quietRule s).1)).roomOccupancy =
      s.roomOccupancy := by simp
  have hts3 : (cancelOnReoccupy (armTimer now (quietRule s).1)).timeoutState =
      false := by
    apply cancelOnReoccupy_cancels
    simpa using h
  rw [expireTimer_of_not_armed now _ hts3, cancelOnManualOff_of_not_armed _ hts3]
  refine ⟨hts3, by simp, by simp, ?_⟩
  intro p
  rcases quietRule_out s with hq | hq <;> simp [hq]

lemma tick_occupied (now : Int) (sensor : Option Int) (s : SysState)
    (h : occPositive s.roomOccupancy = true)
    (hp : s.systemPowerState = "on") :
    (tick now sensor s).1.systemPowerState = "on" ∧
    occPositive (tick now sensor s).1.roomOccupancy = true ∧
    ∀ p, OutCmd.powerCmd p ∉ (tick now sensor s).2 := by
  simp only [tick]
  split
  · cases sensor with
    | none => exact ⟨by simp [hp], by simp [h], by simp⟩
    | some v =>
        have h2 : occPositive ({ pollUpdate s with rpiTemp := some v }).roomOccupancy = true := by
          simpa using h
        obtain ⟨hts, hpw, hro, hout⟩ := tickRest_occupied now _ h2
        refine ⟨by simp_all, ?_, ?_⟩
        · rw [hro]; simpa using h
        · intro p hmem
          simp only [List.mem_cons] at hmem
          rcases hmem with hmem | hmem
          · exact absurd hmem (by simp)
          · exact hout p hmem
  · obtain ⟨hts, hpw, hro, hout⟩ := tickRest_occupied now s h
    exact ⟨by rw [hpw, hp], by rw [hro]; exact h, hout⟩

/-- Tick-only runs from an on, occupied state keep power on and never emit
a power command. -/
lemma runTicks_occupied (ticks : List Event) (s : SysState)
    (hticks : ∀ e ∈ ticks, e.isTick = true)
    (h : occPositive s.roomOccupancy = true)
    (hp : s.systemPowerState = "on") :
    (runFrom s ticks).1.systemPowerState = "on" ∧
    ∀ p, OutCmd.powerCmd p ∉ (runFrom s ticks).2 := by
  induction ticks generalizing s with
  | nil => simp [runFrom, hp]
  | cons e ticks ih =>
      have he : e.isTick = true := hticks e (by simp)
      cases e with
      | msg m => simp [Event.isTick] at he
      | tick now sensor =>
          obtain ⟨hp2, h2, hout⟩ := tick_occupied now sensor s h hp
          have htail : ∀ e ∈ ticks, e.isTick = true := fun e hmem =>
            hticks e (by simp [hmem])
          obtain ⟨hrp, hrout⟩ := ih _ htail h2 hp2
          simp only [runFrom, step]
          refine ⟨hrp, fun p hmem => ?_⟩
          rw [List.mem_append] at hmem
          rcases hmem with hmem | hmem
          · exact hout p hmem
          · exact hrout p hmem

lemma offUnknown_on_message (m : Msg) (s : SysState)
    (hm : ∀ p, m ≠ Msg.userUpdateOccCommand p) (h : OffUnknownInv s) :
    OffUnknownInv (on_message m s).1 := by
  obtain ⟨h0, h1⟩ := h
  cases m with
  | arduinoTempNotice p =>
      cases p <;> simp_all [on_message, OffUnknownInv]
  | arduinoOccChangeNotice p =>
      cases p with
      | none => simp_all [on_message, OffUnknownInv]
      | some d =>
          simp only [on_message]
          split
          · exact ⟨h0, h1⟩
          · rename_i hoff
            cases hocc : s.roomOccupancy <;> simp_all [OffUnknownInv]
  | userRefreshRequest => exact ⟨h0, h1⟩
  | userPowerCommand payload =>
      simp only [on_message]
      split
      · rename_i hv
        have hpo : payload = "on" ∨ payload = "off" := by
          simpa [validPowerStates] using hv
        rcases hpo with hpay | hpay <;> subst hpay
        · by_cases hoff : s.systemPowerState = "off" <;>
            cases hocc : s.roomOccupancy <;> simp_all [OffUnknownInv, is_number]
        · by_cases hon : s.systemPowerState = "on" <;>
            simp_all [OffUnknownInv, is_number]
      · exact ⟨h0, h1⟩
  | userModeCommand payload =>
      by_cases hv : payload ∈ validModes <;> simp_all [on_message, OffUnknownInv]
  | userTempCommand p =>
      cases p with
      | none => simp_all [on_message, OffUnknownInv]
      | some t =>
          by_cases hv : t ∈ validTemps <;> simp_all [on_message, OffUnknownInv]
  | userUpdateOccCommand p => exact absurd rfl (hm p)

lemma offUnknown_quietRule (s : SysState) (h : OffUnknownInv s) :
    OffUnknownInv (quietRule s).1 := by
  obtain ⟨h0, h1⟩ := h
  exact ⟨by simp_all, by simp_all⟩

lemma offUnknown_armTimer (now : Int) (s : SysState) (h : OffUnknownInv s) :
    OffUnknownInv (armTimer now s) := by
  obtain ⟨h0, h1⟩ := h
  exact ⟨by simp_all, by simp_all⟩

lemma offUnknown_cancelOnReoccupy (s : SysState) (h : OffUnknownInv s) :
    OffUnknownInv (cancelOnReoccupy s) := by
  obtain ⟨h0, h1⟩ := h
  exact ⟨by simp_all, by simp_all⟩

lemma offUnknown_expireTimer (now : Int) (s : SysState) (h : OffUnknownInv s) :
    OffUnknownInv (expireTimer now s).1 := by
  obtain ⟨h0, h1⟩ := h
  simp only [expireTimer]
  split <;> simp_all [OffUnknownInv]

lemma offUnknown_cancelOnManualOff (s : SysState) (h : OffUnknownInv s) :
    OffUnknownInv (cancelOnManualOff s) := by
  obtain ⟨h0, h1⟩ := h
  exact ⟨by simp_all, by simp_all⟩

lemma offUnknown_tickRest (now : Int) (s : SysState) (h : OffUnknownInv s) :
    OffUnknownInv (tickRest now s).1 := by
  simp only [tickRest]
  exact offUnknown_cancelOnManualOff _
    (offUnknown_expireTimer now _ (offUnknown_cancelOnReoccupy _
      (offUnknown_armTimer now _ (offUnknown_quietRule _ h))))

lemma offUnknown_tick (now : Int) (sensor : Option Int) (s : SysState)
    (h : OffUnknownInv s) : OffUnknownInv (tick now sensor s).1 := by
  obtain ⟨h0, h1⟩ := h
  simp only [tick]
  split
  · cases sensor with
    | none => exact ⟨by simp_all, by simp_all⟩
    | some v =>
        apply offUnknown_tickRest
        exact ⟨by simp_all, by simp_all⟩
  · exact offUnknown_tickRest now s ⟨h0, h1⟩

lemma offUnknown_runFrom (evs : List Event) (s : SysState)
    (hev : ∀ e ∈ evs, e.isOccOverride = false) (h : OffUnknownInv s) :
    OffUnknownInv (runFrom s evs).1 := by
  induction evs generalizing s with
  | nil => exact h
  | cons e evs ih =>
      have he : e.isOccOverride = false := hev e (by simp)
      have htail : ∀ e ∈ evs, e.isOccOverride = false := fun e hmem =>
        hev e (by simp [hmem])
      apply ih _ htail
      cases e with
      | msg m =>
          apply offUnknown_on_message m s _ h
          intro p hp
          subst hp
          simp [Event.isOccOverride] at he
      | tick now sensor => exact offUnknown_tick now sensor s h

/-- C1 (amended): for every state reachable from the initial OFF state by
inbound messages and control-loop ticks that include no operator
occupancy-override message, power "off" implies occupancy is the "N/A"
sentinel.  The mode half of the original claim is false on the code. -/
theorem power_off_implies_occupancy_unknown (evs : List Event)
    (hev : ∀ e ∈ evs, e.isOccOverride = false)
    (hoff : (run evs).1.systemPowerState = "off") :
    (run evs).1.roomOccupancy = OccVal.na := by
  have h := offUnknown_runFrom evs initState hev
    (by simp [OffUnknownInv, initState])
  exact h.2 hoff

theorem power_off_implies_occupancy_unknown_witness :
    (run [Event.msg (Msg.userPowerCommand "on"),
          Event.msg (Msg.userPowerCommand "off")]).1.roomOccupancy =
      OccVal.na :=
  power_off_implies_occupancy_unknown
    [Event.msg (Msg.userPowerCommand "on"),
     Event.msg (Msg.userPowerCommand "off")] (by decide) (by decide)

/-- C1 counterexample: from the initial OFF state one operator mode command
"quiet" is accepted; afterwards power is still "off" but the mode is
"quiet", not the "N/A" sentinel the claim requires. -/
theorem power_off_invariant_cex :
    (run [Event.msg (Msg.userModeCommand "quiet")]).1.systemPowerState =
      "off" ∧
    (run [Event.msg (Msg.userModeCommand "quiet")]).1.systemMode ≠ "N/A" := by
  decide

/-- C9: every reachable state with power "on" has a numeric, non-negative
occupancy (never the "N/A" sentinel), so `roomOccupancy += occChange` in
the occupancy-delta handler always adds to a number. -/
theorem power_on_occupancy_numeric (evs : List Event)
    (h : (run evs).1.systemPowerState = "on") :
    ∃ k : Int, (run evs).1.roomOccupancy = OccVal.num k ∧ 0 ≤ k := by
  obtain ⟨h0, h1, h2, h3⟩ := inv_run evs
  have hn := h1 h
  cases hocc : (run evs).1.roomOccupancy with
  | na => rw [hocc] at hn; simp [is_number] at hn
  | num k => exact ⟨k, rfl, h2 k hocc⟩

theorem power_on_occupancy_numeric_witness :
    ∃ k : Int,
      (run [Event.msg (Msg.userPowerCommand "on")]).1.roomOccupancy =
        OccVal.num k ∧ 0 ≤ k :=
  power_on_occupancy_numeric [Event.msg (Msg.userPowerCommand "on")]
    (by decide)

/-- C10: in every reachable state, an armed vacancy timer
(`timeoutState == True`) has assigned deadline variables, so neither the
expiry comparison in the main loop nor the deadline formatting in the
refresh handler reads an unassigned variable. -/
theorem armed_timer_deadline_assigned (evs : List Event)
    (h : (run evs).1.timeoutState = true) :
    (run evs).1.timeoutEndTimestamp.isSome = true ∧
    (run evs).1.timeoutEndTime.isSome = true ∧
    refreshTimeoutOk (run evs).1 = true := by
  obtain ⟨h0, h1, h2, h3⟩ := inv_run evs
  obtain ⟨ha, hb⟩ := h3 h
  refine ⟨ha, hb, ?_⟩
  unfold refreshTimeoutOk
  split
  · rfl
  · exact hb

theorem armed_timer_deadline_assigned_witness :
    (run [Event.msg (Msg.userPowerCommand "on"),
          Event.tick 1 none]).1.timeoutEndTimestamp.isSome = true ∧
    (run [Event.msg (Msg.userPowerCommand "on"),
          Event.tick 1 none]).1.timeoutEndTime.isSome = true ∧
    refreshTimeoutOk
      (run [Event.msg (Msg.userPowerCommand "on"),
            Event.tick 1 none]).1 = true :=
  armed_timer_deadline_assigned
    [Event.msg (Msg.userPowerCommand "on"), Event.tick 1 none] (by decide)

/-- C6: numeric occupancy is never negative in any reachable state; the
delta handler computes `max 0 (occupancy + delta)`; a negative absolute
override is rejected without any mutation or command. -/
theorem occupancy_never_negative :
    (∀ evs : List Event, ∀ k : Int,
        (run evs).1.roomOccupancy = OccVal.num k → 0 ≤ k) ∧
    (∀ s : SysState, ∀ j d : Int, ¬ s.systemPowerState = "off" →
        s.roomOccupancy = OccVal.num j →
        (on_message (Msg.arduinoOccChangeNotice (some d)) s).1.roomOccupancy =
          OccVal.num (max 0 (j + d))) ∧
    (∀ s : SysState, ∀ n : Int, n < 0 →
        on_message (Msg.userUpdateOccCommand (some n)) s = (s, [])) := by
  refine ⟨?_, ?_, ?_⟩
  · intro evs k hk
    exact (inv_run evs).2.2.1 k hk
  · intro s j d hoff hocc
    simp only [on_message, if_neg hoff, hocc]
    congr 1
    split <;> omega
  · intro s n hn
    simp [on_message, show ¬ (0 ≤ n) by omega]

theorem occupancy_never_negative_witness :
    (0 : Int) ≤ 0 ∧
    (on_message (Msg.arduinoOccChangeNotice (some (-3)))
        (run [Event.msg (Msg.userPowerCommand "on")]).1).1.roomOccupancy =
      OccVal.num (max 0 (0 + (-3))) ∧
    on_message (Msg.userUpdateOccCommand (some (-1))) initState =
      (initState, []) :=
  ⟨occupancy_never_negative.1 [Event.msg (Msg.userPowerCommand "on")] 0
      (by decide),
   occupancy_never_negative.2.1 _ 0 (-3) (by decide) (by decide),
   occupancy_never_negative.2.2 initState (-1) (by decide)⟩

/-- C3: a power-on accepted while power is off sends, in order with the
0.5 s spacings, power-on, mode-super, temp-command(targetTemp), and leaves
power "on", mode "super", and occupancy 0 if it was "N/A". -/
theorem power_on_command_sequence (s : SysState)
    (h : s.systemPowerState = "off") :
    (on_message (Msg.userPowerCommand "on") s).2 =
      [OutCmd.powerCmd "on", OutCmd.sleepMs 500, OutCmd.modeCmd "super",
       OutCmd.sleepMs 500, OutCmd.tempCmd s.systemTargetTemp] ∧
    (on_message (Msg.userPowerCommand "on") s).1.systemPowerState = "on" ∧
    (on_message (Msg.userPowerCommand "on") s).1.systemMode = "super" ∧
    (s.roomOccupancy = OccVal.na →
      (on_message (Msg.userPowerCommand "on") s).1.roomOccupancy =
        OccVal.num 0) := by
  cases hocc : s.roomOccupancy <;>
    simp [on_message, validPowerStates, is_number, h, hocc]

theorem power_on_command_sequence_witness :
    (on_message (Msg.userPowerCommand "on") initState).2 =
      [OutCmd.powerCmd "on", OutCmd.sleepMs 500, OutCmd.modeCmd "super",
       OutCmd.sleepMs 500, OutCmd.tempCmd initState.systemTargetTemp] ∧
    (on_message (Msg.userPowerCommand "on") initState).1.systemPowerState =
      "on" ∧
    (on_message (Msg.userPowerCommand "on") initState).1.systemMode =
      "super" ∧
    (initState.roomOccupancy = OccVal.na →
      (on_message (Msg.userPowerCommand "on") initState).1.roomOccupancy =
        OccVal.num 0) :=
  power_on_command_sequence initState (by decide)

/-- C4: sending "on" twice from the OFF state: the first message emits the
mode-super and target-temperature commands; the repeated "on" emits only
the forwarded power command (no mode or temperature command) and leaves
the state exactly as it was. -/
theorem repeated_power_on_idempotent (s : SysState)
    (h : s.systemPowerState = "off") :
    (OutCmd.modeCmd "super" ∈ (on_message (Msg.userPowerCommand "on") s).2 ∧
     OutCmd.tempCmd s.systemTargetTemp ∈
       (on_message (Msg.userPowerCommand "on") s).2) ∧
    (on_message (Msg.userPowerCommand "on")
        (on_message (Msg.userPowerCommand "on") s).1).2 =
      [OutCmd.powerCmd "on"] ∧
    (on_message (Msg.userPowerCommand "on")
        (on_message (Msg.userPowerCommand "on") s).1).1 =
      (on_message (Msg.userPowerCommand "on") s).1 := by
  cases s with
  | mk aav adt rt occ pocc md tt pw ts tets tet =>
    cases occ <;> simp_all [on_message, validPowerStates, is_number]

theorem repeated_power_on_idempotent_witness :
    (OutCmd.modeCmd "super" ∈
       (on_message (Msg.userPowerCommand "on") initState).2 ∧
     OutCmd.tempCmd initState.systemTargetTemp ∈
       (on_message (Msg.userPowerCommand "on") initState).2) ∧
    (on_message (Msg.userPowerCommand "on")
        (on_message (Msg.userPowerCommand "on") initState).1).2 =
      [OutCmd.powerCmd "on"] ∧
    (on_message (Msg.userPowerCommand "on")
        (on_message (Msg.userPowerCommand "on") initState).1).1 =
      (on_message (Msg.userPowerCommand "on") initState).1 :=
  repeated_power_on_idempotent initState (by decide)

/-- C5 (amended): the mode handler checks only that the payload is one of
{quiet, super, cooling}; it never checks power, so a valid mode is accepted
(state change and actuator command) even while power is off, and only an
invalid payload is rejected without mutation or command. -/
theorem mode_command_validation (s : SysState) (payload : String) :
    (payload ∈ validModes →
      on_message (Msg.userModeCommand payload) s =
        ({ s with systemMode := payload }, [OutCmd.modeCmd payload])) ∧
    (payload ∉ validModes →
      on_message (Msg.userModeCommand payload) s = (s, [])) := by
  constructor <;> intro h <;> simp [on_message, h]

theorem mode_command_validation_witness :
    on_message (Msg.userModeCommand "quiet") initState =
      ({ initState with systemMode := "quiet" }, [OutCmd.modeCmd "quiet"]) ∧
    on_message (Msg.userModeCommand "heat") initState = (initState, []) :=
  ⟨(mode_command_validation initState "quiet").1 (by decide),
   (mode_command_validation initState "heat").2 (by decide)⟩

/-- C5 counterexample: with power off (the initial state), the mode command
"cooling" is accepted: the mode changes and the actuator mode command is
emitted, contradicting the claimed `InvalidMode` rejection when power is
OFF. -/
theorem mode_command_power_off_cex :
    initState.systemPowerState = "off" ∧
    (on_message (Msg.userModeCommand "cooling") initState).1.systemMode =
      "cooling" ∧
    (on_message (Msg.userModeCommand "cooling") initState).2 =
      [OutCmd.modeCmd "cooling"] := by
  decide

/-- C2 (amended): from power ON, occupancy 2, timer idle, an occupancy
delta of −2 makes occupancy 0; the next (non-poll) tick arms the vacancy
timer with deadline now + T (T = timeoutMinutes·60); the first tick after
the deadline with no reoccupation sets power "off", occupancy "N/A",
clears the timer and emits the power-off command — but leaves the mode
unchanged instead of setting it to "N/A" (see the counterexample). -/
theorem vacancy_timeout_scenario (s : SysState) (t u : Int)
    (hp : s.systemPowerState = "on") (ho : s.roomOccupancy = OccVal.num 2)
    (ht : s.timeoutState = false) (htick : ¬ t % 60 = 0)
    (hutick : ¬ u % 60 = 0) (hlate : t + timeoutMinutes * 60 < u) :
    (on_message (Msg.arduinoOccChangeNotice (some (-2))) s).1.roomOccupancy =
      OccVal.num 0 ∧
    (tick t none
        (on_message (Msg.arduinoOccChangeNotice (some (-2))) s).1).1.timeoutState
      = true ∧
    (tick t none
        (on_message (Msg.arduinoOccChangeNotice (some (-2))) s).1).1.timeoutEndTimestamp
      = some (t + timeoutMinutes * 60) ∧
    (tick u none
        (tick t none
          (on_message (Msg.arduinoOccChangeNotice (some (-2))) s).1).1).1.systemPowerState
      = "off" ∧
    (tick u none
        (tick t none
          (on_message (Msg.arduinoOccChangeNotice (some (-2))) s).1).1).1.roomOccupancy
      = OccVal.na ∧
    (tick u none
        (tick t none
          (on_message (Msg.arduinoOccChangeNotice (some (-2))) s).1).1).1.timeoutState
      = false ∧
    (tick u none
        (tick t none
          (on_message (Msg.arduinoOccChangeNotice (some (-2))) s).1).1).1.systemMode
      = s.systemMode ∧
    (tick u none
        (tick t none
          (on_message (Msg.arduinoOccChangeNotice (some (-2))) s).1).1).2
      = [OutCmd.powerCmd "off"] := by
  have h300 : (0 : Int) ≤ timeoutMinutes * 60 := by norm_num [timeoutMinutes]
  have hnx : ¬ (t > t + timeoutMinutes * 60) := by omega
  have hgt : u > t + timeoutMinutes * 60 := hlate
  have e1 : on_message (Msg.arduinoOccChangeNotice (some (-2))) s =
      ({ s with priorRoomOccupancy := some (OccVal.num 2),
                roomOccupancy := OccVal.num 0 }, []) := by
    norm_num [on_message, hp, ho]
    intro hcon
    exact absurd hcon (by decide)
  rw [e1]
  have e2 : tick t none
      { s with priorRoomOccupancy := some (OccVal.num 2),
               roomOccupancy := OccVal.num 0 } =
      ({ s with priorRoomOccupancy := some (OccVal.num 2),
                roomOccupancy := OccVal.num 0,
                timeoutEndTimestamp := some (t + timeoutMinutes * 60),
                timeoutEndTime := some (t + timeoutMinutes * 60),
                timeoutState := true }, []) := by
    simp only [tick, if_neg htick]
    simp [tickRest, quietRule, armTimer, cancelOnReoccupy, expireTimer,
          cancelOnManualOff, timerExpired, occPositive, hp, ht, hnx]
  rw [e2]
  have e3 : tick u none
      { s with priorRoomOccupancy := some (OccVal.num 2),
               roomOccupancy := OccVal.num 0,
               timeoutEndTimestamp := some (t + timeoutMinutes * 60),
               timeoutEndTime := some (t + timeoutMinutes * 60),
               timeoutState := true } =
      ({ s with priorRoomOccupancy := some (OccVal.num 2),
                roomOccupancy := OccVal.na,
                timeoutEndTimestamp := some (t + timeoutMinutes * 60),
                timeoutEndTime := some (t + timeoutMinutes * 60),
                timeoutState := false,
                systemPowerState := "off" }, [OutCmd.powerCmd "off"]) := by
    simp only [tick, if_neg hutick]
    simp [tickRest, quietRule, armTimer, cancelOnReoccupy, expireTimer,
          cancelOnManualOff, timerExpired, occPositive, hp, hgt]
  rw [e3]
  simp

theorem vacancy_timeout_scenario_witness :
    (tick 302 none
        (tick 1 none
          (on_message (Msg.arduinoOccChangeNotice (some (-2)))
            (run [Event.msg (Msg.userPowerCommand "on"),
                  Event.msg (Msg.arduinoOccChangeNotice (some 2))]).1).1).1).1.systemPowerState
      = "off" ∧
    (tick 302 none
        (tick 1 none
          (on_message (Msg.arduinoOccChangeNotice (some (-2)))
            (run [Event.msg (Msg.userPowerCommand "on"),
                  Event.msg (Msg.arduinoOccChangeNotice (some 2))]).1).1).1).1.timeoutState
      = false :=
  have h := vacancy_timeout_scenario
    (run [Event.msg (Msg.userPowerCommand "on"),
          Event.msg (Msg.arduinoOccChangeNotice (some 2))]).1 1 302
    (by decide) (by decide) (by decide) (by decide) (by decide) (by decide)
  ⟨h.2.2.2.1, h.2.2.2.2.2.1⟩

/-- C2 counterexample: the concrete run power-on, delta +2, delta −2,
tick at 1 (arms the timer, deadline 301), tick at 302 (expiry): power is
"off", occupancy "N/A", the timer cleared — but the mode is still "super",
not the "N/A" (UNSET) the claim requires. -/
theorem vacancy_timeout_mode_cex :
    (run [Event.msg (Msg.userPowerCommand "on"),
          Event.msg (Msg.arduinoOccChangeNotice (some 2)),
          Event.msg (Msg.arduinoOccChangeNotice (some (-2))),
          Event.tick 1 none, Event.tick 302 none]).1.systemPowerState =
      "off" ∧
    (run [Event.msg (Msg.userPowerCommand "on"),
          Event.msg (Msg.arduinoOccChangeNotice (some 2)),
          Event.msg (Msg.arduinoOccChangeNotice (some (-2))),
          Event.tick 1 none, Event.tick 302 none]).1.timeoutState = false ∧
    (run [Event.msg (Msg.userPowerCommand "on"),
          Event.msg (Msg.arduinoOccChangeNotice (some 2)),
          Event.msg (Msg.arduinoOccChangeNotice (some (-2))),
          Event.tick 1 none, Event.tick 302 none]).1.roomOccupancy =
      OccVal.na ∧
    (run [Event.msg (Msg.userPowerCommand "on"),
          Event.msg (Msg.arduinoOccChangeNotice (some 2)),
          Event.msg (Msg.arduinoOccChangeNotice (some (-2))),
          Event.tick 1 none, Event.tick 302 none]).1.systemMode = "super" ∧
    (run [Event.msg (Msg.userPowerCommand "on"),
          Event.msg (Msg.arduinoOccChangeNotice (some 2)),
          Event.msg (Msg.arduinoOccChangeNotice (some (-2))),
          Event.tick 1 none, Event.tick 302 none]).1.systemMode ≠ "N/A" := by
  decide

/-- C7 (amended): with the timer armed, power on and occupancy numeric, a
delta that makes occupancy positive keeps power on and the timer armed
until the next tick; any tick that runs the timeout evaluation (every tick
except a poll tick whose sensor read fails) cancels the timer; and over
any subsequent sequence of ticks power stays "on" and no power command is
ever emitted — including ticks at or after the original deadline.  The
"next tick" conjunct of the original claim fails when that tick is a poll
tick with a failed sensor read (see the counterexample). -/
theorem reoccupation_prevents_poweroff (s : SysState) (j d : Int)
    (hp : s.systemPowerState = "on") (ht : s.timeoutState = true)
    (ho : s.roomOccupancy = OccVal.num j) (hjd : 0 < j + d) :
    (on_message (Msg.arduinoOccChangeNotice (some d)) s).1.roomOccupancy =
      OccVal.num (j + d) ∧
    (on_message (Msg.arduinoOccChangeNotice (some d)) s).1.systemPowerState =
      "on" ∧
    (on_message (Msg.arduinoOccChangeNotice (some d)) s).1.timeoutState =
      true ∧
    (∀ t : Int, ∀ sensor : Option Int, (¬ t % 60 = 0 ∨ sensor ≠ none) →
      (tick t sensor
        (on_message (Msg.arduinoOccChangeNotice (some d)) s).1).1.timeoutState
        = false) ∧
    (∀ ticks : List Event, (∀ e ∈ ticks, e.isTick = true) →
      (runFrom (on_message (Msg.arduinoOccChangeNotice (some d)) s).1
          ticks).1.systemPowerState = "on" ∧
      ∀ p, OutCmd.powerCmd p ∉
        (runFrom (on_message (Msg.arduinoOccChangeNotice (some d)) s).1
          ticks).2) := by
  have hcl : ¬ (j + d < 0) := by omega
  have e1 : on_message (Msg.arduinoOccChangeNotice (some d)) s =
      ({ s with priorRoomOccupancy := some (OccVal.num j),
                roomOccupancy := OccVal.num (j + d) }, []) := by
    norm_num [on_message, hp, ho, hcl]
    intro hcon
    exact absurd hcon (by decide)
  rw [e1]
  have hocc1 : occPositive
      ({ s with priorRoomOccupancy := some (OccVal.num j),
                roomOccupancy := OccVal.num (j + d) } : SysState).roomOccupancy
      = true := by
    simp [occPositive, hjd]
  refine ⟨rfl, hp, ht, ?_, ?_⟩
  · intro t sensor hc
    by_cases hpoll : t % 60 = 0
    · cases sensor with
      | none =>
          rcases hc with hc | hc
          · exact absurd hpoll hc
          · exact absurd rfl hc
      | some v =>
          simp only [tick, if_pos hpoll]
          have hocc2 : occPositive
              ({ pollUpdate
                  { s with priorRoomOccupancy := some (OccVal.num j),
                           roomOccupancy := OccVal.num (j + d) } with
                 rpiTemp := some v } : SysState).roomOccupancy = true := by
            simpa using hocc1
          exact (tickRest_occupied t _ hocc2).1
    · simp only [tick, if_neg hpoll]
      exact (tickRest_occupied t _ hocc1).1
  · intro ticks hticks
    exact runTicks_occupied ticks _ hticks hocc1 hp

theorem reoccupation_prevents_poweroff_witness :
    (tick 302 none
        (on_message (Msg.arduinoOccChangeNotice (some 1))
          (run [Event.msg (Msg.userPowerCommand "on"),
                Event.tick 1 none]).1).1).1.timeoutState = false ∧
    (runFrom
        (on_message (Msg.arduinoOccChangeNotice (some 1))
          (run [Event.msg (Msg.userPowerCommand "on"),
                Event.tick 1 none]).1).1
        [Event.tick 302 none, Event.tick 600 (some 20)]).1.systemPowerState
      = "on" :=
  have h := reoccupation_prevents_poweroff
    (run [Event.msg (Msg.userPowerCommand "on"), Event.tick 1 none]).1 0 1
    (by decide) (by decide) (by decide) (by decide)
  ⟨h.2.2.2.1 302 none (Or.inl (by decide)),
   (h.2.2.2.2 [Event.tick 302 none, Event.tick 600 (some 20)] (by decide)).1⟩

/-- C7 counterexample: timer armed at tick 1 (deadline 301); occupancy
delta +1 arrives well before the deadline; the next tick (at 60) is a poll
tick whose sensor read fails, so its `continue` skips the
reoccupation-cancel block and the timer is still armed after that tick —
the claimed Armed→Idle transition "on the next tick" does not happen. -/
theorem reoccupation_cancel_delay_cex :
    (run [Event.msg (Msg.userPowerCommand "on"),
          Event.tick 1 none]).1.timeoutState = true ∧
    (run [Event.msg (Msg.userPowerCommand "on"), Event.tick 1 none,
          Event.msg (Msg.arduinoOccChangeNotice (some 1))]).1.roomOccupancy =
      OccVal.num 1 ∧
    (run [Event.msg (Msg.userPowerCommand "on"), Event.tick 1 none,
          Event.msg (Msg.arduinoOccChangeNotice (some 1)),
          Event.tick 60 none]).1.timeoutState = true := by
  decide

/-- C8 (amended): a failed sensor read on a poll tick is not fatal, but the
`continue` skips the entire remainder of that loop pass: the tick emits
only the temperature request, and the quiet-mode rule and the
occupancy-timeout evaluation do not run on that tick (mode, power,
occupancy and timer state are unchanged); on any subsequent tick the
remaining steps execute again (a non-poll tick runs `tickRest` directly,
and a poll tick with a successful read runs it after the poll). -/
theorem sensor_failure_skips_tick_nonfatal (s : SysState) (t : Int)
    (hpoll : t % 60 = 0) :
    tick t none s = (pollUpdate s, [OutCmd.tempRequest]) ∧
    (tick t none s).1.systemMode = s.systemMode ∧
    (tick t none s).1.systemPowerState = s.systemPowerState ∧
    (tick t none s).1.roomOccupancy = s.roomOccupancy ∧
    (tick t none s).1.timeoutState = s.timeoutState ∧
    (∀ u : Int, ∀ sensor : Option Int, ¬ u % 60 = 0 →
      tick u sensor (tick t none s).1 = tickRest u (tick t none s).1) ∧
    (∀ u v : Int, u % 60 = 0 →
      (tick u (some v) (tick t none s).1).1 =
        (tickRest u
          { pollUpdate (tick t none s).1 with rpiTemp := some v }).1) := by
  have e : tick t none s = (pollUpdate s, [OutCmd.tempRequest]) := by
    simp [tick, hpoll]
  refine ⟨e, by rw [e]; simp, by rw [e]; simp, by rw [e]; simp,
          by rw [e]; simp, ?_, ?_⟩
  · intro u sensor hu
    simp [tick, hu]
  · intro u v hu
    simp [tick, hu]

theorem sensor_failure_skips_tick_nonfatal_witness :
    tick 0 none initState = (pollUpdate initState, [OutCmd.tempRequest]) ∧
    (tick 0 none initState).1.timeoutState = initState.timeoutState :=
  have h := sensor_failure_skips_tick_nonfatal initState 0 (by decide)
  ⟨h.1, h.2.2.2.2.1⟩

/-- C8 counterexample: after power-on the state has power "on", occupancy
0 and an idle timer, so a tick that evaluates the occupancy timeout must
arm it (as the claim asserts happens even on a sensor-failure tick); but
the poll tick at 60 with a failed sensor read leaves the timer idle — the
remaining steps of that tick did not execute.  A poll tick at 60 with a
successful read does arm the timer. -/
theorem sensor_failure_skips_timer_cex :
    (run [Event.msg (Msg.userPowerCommand "on")]).1.systemPowerState =
      "on" ∧
    (run [Event.msg (Msg.userPowerCommand "on")]).1.roomOccupancy =
      OccVal.num 0 ∧
    (run [Event.msg (Msg.userPowerCommand "on")]).1.timeoutState = false ∧
    (run [Event.msg (Msg.userPowerCommand "on"),
          Event.tick 60 none]).1.timeoutState = false ∧
    (run [Event.msg (Msg.userPowerCommand "on"),
          Event.tick 60 (some 20)]).1.timeoutState = true := by
  decide

end SmartAC
